import Mathlib

/-!
Verification of the `radicalfield` repository: the C extension module
`src/radicalfield/_quadraticelement2module.c`, which defines the heap type
`radicalfield._quadraticelement2.QuadraticElement2` holding two owned object
fields `a` and `b`, together with the spec's contracts for the arithmetic
layer (addition, multiplication, equality) that the inspected source does
not implement.

The embedding is shallow: host objects are an inductive `PyObj` (an exact
integer or an opaque non-integer object identified by a tag); reference
count effects are tracked as multisets of acquired and released owned
references; host failure points (argument parsing, integer creation,
envelope allocation) are explicit boolean oracles.
-/

/-- A host object: an exact (arbitrary-precision) integer, or an opaque
non-integer object identified by a tag. -/
inductive PyObj where
  | int (n : ℤ)
  | other (tag : ℕ)
deriving DecidableEq

/-- The C struct `quadraticelement2object`: two `PyObject*` fields, each
possibly NULL (`none`), as after `quadraticelement2_clear`. -/
structure QE2Object where
  a : Option PyObj
  b : Option PyObj
deriving DecidableEq

/-- Outcome of `quadraticelement2_new`: the constructed object (or `none` on
error) together with the owned references acquired (`Py_INCREF`,
`PyLong_FromLong`) and released (`Py_DECREF`) during the call. -/
structure NewResult where
  result : Option QE2Object
  acquired : Multiset PyObj
  released : Multiset PyObj
deriving DecidableEq

/-- Lines 37-53 of the C source: a missing argument is replaced by
`PyLong_FromLong(0)` (which may fail, oracle `fromLongOk`), a present
argument gets `Py_INCREF`. Either way the returned reference is owned. -/
def acquireArg (arg : Option PyObj) (fromLongOk : Bool) : Option PyObj :=
  match arg with
  | some x => some x
  | none => if fromLongOk then some (PyObj.int 0) else none

/-- Continuation of `quadraticelement2_new` after both owned references `a`
and `b` are in hand: `tp_alloc` (oracle `allocOk`); on allocation failure
both references are released (lines 55-60), on success they are bound to
the fields (lines 62-64). -/
def quadraticelement2_new_bind (a b : PyObj) (allocOk : Bool) : NewResult :=
  if allocOk then ⟨some ⟨some a, some b⟩, {a, b}, 0⟩
  else ⟨none, {a, b}, {a, b}⟩

/-- Continuation of `quadraticelement2_new` after an owned reference `a` is
in hand: acquire `b` (lines 45-53; on failure `Py_DECREF(a)`, line 48),
then allocate and bind. -/
def quadraticelement2_new_withA (a : PyObj) (argB : Option PyObj)
    (fromLongBOk allocOk : Bool) : NewResult :=
  match acquireArg argB fromLongBOk with
  | none => ⟨none, {a}, {a}⟩
  | some b => quadraticelement2_new_bind a b allocOk

/-- The C constructor `quadraticelement2_new` (lines 26-65).
`parseOk` models `PyArg_ParseTupleAndKeywords(args, kwds, "|OO", ...)`
succeeding; `argA`/`argB` are the parsed optional arguments (format `O`:
arbitrary objects, no conversion); `fromLongAOk`/`fromLongBOk` model the
two possible `PyLong_FromLong(0)` calls succeeding; `allocOk` models
`tp_alloc` succeeding. -/
def quadraticelement2_new (parseOk : Bool) (argA argB : Option PyObj)
    (fromLongAOk fromLongBOk allocOk : Bool) : NewResult :=
  if parseOk then
    match acquireArg argA fromLongAOk with
    | none => ⟨none, 0, 0⟩
    | some a => quadraticelement2_new_withA a argB fromLongBOk allocOk
  else ⟨none, 0, 0⟩

/-- Modelled from the spec: the arithmetic layer (`radicalfield.quadraticint2`
in the documentation) is not present in the inspected source, so the value
type of section 3 is taken at the spec's word: an element `a + b*sqrt 2`
with exact-integer fields. -/
structure QuadraticElement where
  a : ℤ
  b : ℤ
deriving DecidableEq

/-- Modelled from the spec: the constructor of section 4.1 restricted to
already-exact integer inputs, `construct(a, b)`. -/
def construct (a b : ℤ) : QuadraticElement := ⟨a, b⟩

/-- Modelled from the spec: `add` of section 4.3, with
`a = x.a + y.a`, `b = x.b + y.b`. -/
def add (x y : QuadraticElement) : QuadraticElement :=
  ⟨x.a + y.a, x.b + y.b⟩

/-- Modelled from the spec: `multiply` of section 4.4, with
`a = x.a*y.a + 2*(x.b*y.b)`, `b = x.a*y.b + y.a*x.b`. -/
def multiply (x y : QuadraticElement) : QuadraticElement :=
  ⟨x.a * y.a + 2 * (x.b * y.b), x.a * y.b + y.a * x.b⟩

/-- Modelled from the spec: `equals` of section 4.2 (the source's
`Py_tp_richcompare` slot is commented out): field-wise exact-integer
equality. -/
def equals (x y : QuadraticElement) : Bool :=
  x.a == y.a && x.b == y.b

/-- Reading a fully constructed `QE2Object` whose fields are exact integers
back as a spec-level `QuadraticElement`. -/
def toQuadraticElement (o : QE2Object) : Option QuadraticElement :=
  match o.a, o.b with
  | some (PyObj.int a), some (PyObj.int b) => some ⟨a, b⟩
  | _, _ => none

/-- One entry of the C `PyMemberDef` table: the attribute name and whether
the `Py_READONLY` flag is set (both entries use type `Py_T_OBJECT_EX`). -/
structure MemberDef where
  attrName : String
  readonly : Bool
deriving DecidableEq

/-- The C table `quadraticelement2_members` (lines 98-102): `a` and `b`,
both `Py_T_OBJECT_EX` at the field's offset, both `Py_READONLY`. -/
def quadraticelement2_members : List MemberDef :=
  [⟨"a", true⟩, ⟨"b", true⟩]

/-- Host member descriptor read (`PyMember_GetOne`, `Py_T_OBJECT_EX`):
returns the stored field at the member's offset; `none` models the
`AttributeError` raised when the slot is NULL. -/
def pyMember_GetOne (o : QE2Object) (m : MemberDef) : Option PyObj :=
  if m.attrName = "a" then o.a
  else if m.attrName = "b" then o.b
  else none

/-- Host member descriptor write (`PyMember_SetOne`): a member whose flags
contain `Py_READONLY` rejects every assignment with an `AttributeError`
(`none`) before touching the object; otherwise the field is rebound. -/
def pyMember_SetOne (o : QE2Object) (m : MemberDef) (v : PyObj) :
    Option QE2Object :=
  if m.readonly then none
  else if m.attrName = "a" then some ⟨some v, o.b⟩
  else if m.attrName = "b" then some ⟨o.a, some v⟩
  else none

/-- The `Py_VISIT` macro on a possibly-NULL slot: a NULL slot is skipped,
otherwise the visitor runs (threading its state) and a nonzero result is
propagated by the caller. -/
def pyVisit (visit : PyObj → σ → Int × σ) (o : Option PyObj) (s : σ) :
    Int × σ :=
  match o with
  | none => (0, s)
  | some x => visit x s

/-- The C callback `quadraticelement2_traverse` (lines 79-87): `Py_VISIT`
the heap type, then field `a`, then field `b`, stopping at the first
nonzero visitor result; returns 0 otherwise. `tp` is `Py_TYPE(qe)`. -/
def quadraticelement2_traverse (tp : PyObj) (qe : QE2Object)
    (visit : PyObj → σ → Int × σ) (s : σ) : Int × σ :=
  let r1 := visit tp s
  if r1.1 ≠ 0 then r1
  else
    let r2 := pyVisit visit qe.a r1.2
    if r2.1 ≠ 0 then r2
    else pyVisit visit qe.b r2.2

/-- A collector visitor that records every visited object and never
fails. -/
def collectVisitor (x : PyObj) (s : List PyObj) : Int × List PyObj :=
  (0, s ++ [x])

/-- The `Py_CLEAR` macro on one slot: a NULL slot is left untouched and
nothing is released (no-op); otherwise the slot is set to NULL and the
single owned reference it held is released. -/
def pyClear (o : Option PyObj) : Option PyObj × Multiset PyObj :=
  match o with
  | none => (none, 0)
  | some x => (none, {x})

/-- The C callback `quadraticelement2_clear` (lines 89-96): `Py_CLEAR` both
fields and return 0. The result is the status, the object afterwards, and
the owned references released. -/
def quadraticelement2_clear (qe : QE2Object) :
    Int × QE2Object × Multiset PyObj :=
  let ra := pyClear qe.a
  let rb := pyClear qe.b
  (0, ⟨ra.1, rb.1⟩, ra.2 + rb.2)

/-- The `name` field of the C `PyType_Spec` `quadraticelement2_spec`
(line 143). -/
def quadraticelement2_spec_name : String :=
  "radicalfield._quadraticelement2.QuadraticElement2"

/-- `PyModule_AddType` binds the type in the module's attribute table under
the part of its spec name after the last dot (`strrchr` semantics; the
whole name when it contains no dot). -/
def shortName (s : String) : String :=
  String.mk ((s.data.reverse.takeWhile (fun c => c ≠ '.')).reverse)

/-- The C module slot `module_exec` (lines 153-167): create the type from
`quadraticelement2_spec` (oracle `typeOk`, `PyType_FromModuleAndSpec`),
then register it in the module (oracle `addOk`, `PyModule_AddType`);
either failure aborts execution with -1 (`Except.error`). On success the
module's attribute table maps the type's short name to its qualified
name. -/
def module_exec (typeOk addOk : Bool) :
    Except Int (List (String × String)) :=
  if typeOk then
    if addOk then
      Except.ok [(shortName quadraticelement2_spec_name,
                  quadraticelement2_spec_name)]
    else Except.error (-1)
  else Except.error (-1)

/-- C1: binary addition is total over pairs of Quadratic Elements and is
field-wise exact-integer addition (`a = x.a + y.a`, `b = x.b + y.b`); in
particular `construct(1,2) + construct(3,4)` equals `construct(4,6)`. -/
theorem C1_addition_componentwise :
    (∀ x y : QuadraticElement, add x y = ⟨x.a + y.a, x.b + y.b⟩) ∧
    equals (add (construct 1 2) (construct 3 4)) (construct 4 6) = true :=
  ⟨fun _ _ => rfl, by decide⟩

/-- C2: binary multiplication is total over pairs of Quadratic Elements with
`a = x.a*y.a + 2*(x.b*y.b)` and `b = x.a*y.b + y.a*x.b`; in particular
`construct(1,2) * construct(3,4)` equals `construct(19,10)`. -/
theorem C2_multiplication_componentwise :
    (∀ x y : QuadraticElement,
      multiply x y = ⟨x.a * y.a + 2 * (x.b * y.b), x.a * y.b + y.a * x.b⟩) ∧
    equals (multiply (construct 1 2) (construct 3 4)) (construct 19 10) = true :=
  ⟨fun _ _ => rfl, by decide⟩

/-- C3: `equals x y` returns true iff `x.a = y.a` and `x.b = y.b` as exact
integers (structural, field-wise equality). -/
theorem C3_equals_iff_fieldwise (x y : QuadraticElement) :
    equals x y = true ↔ x.a = y.a ∧ x.b = y.b := by
  simp [equals]

/-- C4 counterexample: constructing with two arguments that are not
integer-convertible (opaque non-integer objects) does not fail — the C
constructor parses them with format `O` and stores them unconverted, so no
`ConversionError` is possible. -/
theorem C4_counterexample :
    (quadraticelement2_new true (some (PyObj.other 42)) (some (PyObj.other 7))
        true true true).result =
      some ⟨some (PyObj.other 42), some (PyObj.other 7)⟩ := rfl

/-- C4 amended: the constructor performs no conversion to the exact-integer
type; any pair of supplied argument objects is accepted and stored as
given, so construction with supplied arguments cannot fail with a
`ConversionError` (and releases nothing). -/
theorem C4_amended_no_conversion (x y : PyObj) (fA fB : Bool) :
    quadraticelement2_new true (some x) (some y) fA fB true =
      ⟨some ⟨some x, some y⟩, {x, y}, 0⟩ := rfl

/-- C5: an omitted constructor argument defaults the corresponding field to
the exact integer zero, and the fully defaulted construction equals
`construct(0, 0)` under the spec's field-wise equality. -/
theorem C5_defaults_to_zero (x : PyObj) :
    (quadraticelement2_new true none none true true true).result =
      some ⟨some (PyObj.int 0), some (PyObj.int 0)⟩ ∧
    (quadraticelement2_new true (some x) none true true true).result =
      some ⟨some x, some (PyObj.int 0)⟩ ∧
    (quadraticelement2_new true none (some x) true true true).result =
      some ⟨some (PyObj.int 0), some x⟩ ∧
    ((quadraticelement2_new true none none true true true).result.bind
        toQuadraticElement).map (fun q => equals q (construct 0 0)) =
      some true :=
  ⟨rfl, rfl, rfl, rfl⟩

/-- C6: on every error path of the constructor, every owned reference
acquired during the call has been released by the time the error is
reported — no partial ownership leaks. -/
theorem C6_error_paths_release_all (parseOk : Bool) (argA argB : Option PyObj)
    (fA fB al : Bool)
    (h : (quadraticelement2_new parseOk argA argB fA fB al).result = none) :
    (quadraticelement2_new parseOk argA argB fA fB al).acquired =
      (quadraticelement2_new parseOk argA argB fA fB al).released := by
  cases parseOk <;> cases argA <;> cases fA <;> cases argB <;> cases fB <;>
    cases al <;>
    simp_all [quadraticelement2_new, acquireArg, quadraticelement2_new_withA,
      quadraticelement2_new_bind]

/-- C6 witness: the concrete error path where `a` was supplied and the
default creation for `b` fails releases exactly what it acquired. -/
theorem C6_error_paths_release_all_witness :
    (quadraticelement2_new true (some (PyObj.other 5)) none true false
        true).acquired =
      (quadraticelement2_new true (some (PyObj.other 5)) none true false
        true).released :=
  C6_error_paths_release_all true (some (PyObj.other 5)) none true false true
    rfl

/-- C9: with both arguments explicitly supplied (any objects whatsoever) and
allocation succeeding, construction succeeds, the fields are the identical
argument objects (no conversion, no copy), and exactly one new counted
reference per argument is taken with nothing released. -/
theorem C9_arguments_stored_identically (x y : PyObj) (fA fB : Bool) :
    (quadraticelement2_new true (some x) (some y) fA fB true).result =
      some ⟨some x, some y⟩ ∧
    (quadraticelement2_new true (some x) (some y) fA fB true).acquired =
      {x, y} ∧
    (quadraticelement2_new true (some x) (some y) fA fB true).released = 0 :=
  ⟨rfl, rfl, rfl⟩

/-- C7: both entries of the member table carry the read-only flag; reading
the `a` and `b` accessors returns the stored field values; and every
attempt to set a member of the table fails. -/
theorem C7_members_readonly (o : QE2Object) (m : MemberDef) (v : PyObj)
    (hm : m ∈ quadraticelement2_members) :
    m.readonly = true ∧
    pyMember_GetOne o ⟨"a", true⟩ = o.a ∧
    pyMember_GetOne o ⟨"b", true⟩ = o.b ∧
    pyMember_SetOne o m v = none := by
  simp only [quadraticelement2_members, List.mem_cons,
    List.not_mem_nil, or_false] at hm
  rcases hm with rfl | rfl <;>
    refine ⟨rfl, rfl, ?_, rfl⟩ <;> simp [pyMember_GetOne]

/-- C7 witness: instantiated at the member `a`, a concrete object and a
concrete value. -/
theorem C7_members_readonly_witness :
    (⟨"a", true⟩ : MemberDef).readonly = true ∧
    pyMember_GetOne ⟨some (PyObj.int 1), some (PyObj.int 2)⟩ ⟨"a", true⟩ =
      some (PyObj.int 1) ∧
    pyMember_GetOne ⟨some (PyObj.int 1), some (PyObj.int 2)⟩ ⟨"b", true⟩ =
      some (PyObj.int 2) ∧
    pyMember_SetOne ⟨some (PyObj.int 1), some (PyObj.int 2)⟩ ⟨"a", true⟩
      (PyObj.int 9) = none :=
  C7_members_readonly ⟨some (PyObj.int 1), some (PyObj.int 2)⟩ ⟨"a", true⟩
    (PyObj.int 9) (by simp [quadraticelement2_members])

/-- C8: with a never-failing collector visitor, the traversal callback
returns success and the recorded visit list contains every bound owned
field (`a` and `b`); the clear callback returns success on every input,
leaves both fields clear, releases nothing when run again on the cleared
object, and clearing an already-clear field is a no-op. -/
theorem C8_traverse_reports_clear_infallible (tp : PyObj) (qe : QE2Object)
    (x : PyObj) :
    (quadraticelement2_traverse tp qe collectVisitor []).1 = 0 ∧
    (qe.a = some x →
      x ∈ (quadraticelement2_traverse tp qe collectVisitor []).2) ∧
    (qe.b = some x →
      x ∈ (quadraticelement2_traverse tp qe collectVisitor []).2) ∧
    (quadraticelement2_clear qe).1 = 0 ∧
    (quadraticelement2_clear qe).2.1 = ⟨none, none⟩ ∧
    (quadraticelement2_clear ((quadraticelement2_clear qe).2.1)).2.2 = 0 ∧
    (qe.a = none → pyClear qe.a = (none, 0)) := by
  obtain ⟨a, b⟩ := qe
  cases a <;> cases b <;>
    simp_all [quadraticelement2_traverse, collectVisitor, pyVisit,
      quadraticelement2_clear, pyClear]

/-- C8 witness: instantiated at a concrete type object, a fully bound
element and its `a` field. -/
theorem C8_traverse_reports_clear_infallible_witness :
    PyObj.int 1 ∈ (quadraticelement2_traverse (PyObj.other 0)
      ⟨some (PyObj.int 1), some (PyObj.int 2)⟩ collectVisitor []).2 ∧
    (quadraticelement2_clear
      ⟨some (PyObj.int 1), some (PyObj.int 2)⟩).1 = 0 :=
  ⟨(C8_traverse_reports_clear_infallible (PyObj.other 0)
      ⟨some (PyObj.int 1), some (PyObj.int 2)⟩ (PyObj.int 1)).2.1 rfl,
   (C8_traverse_reports_clear_infallible (PyObj.other 0)
      ⟨some (PyObj.int 1), some (PyObj.int 2)⟩ (PyObj.int 1)).2.2.2.1⟩

/-- C10: executing the module registers exactly one type, bound to the
module attribute `QuadraticElement2` with qualified name
`radicalfield._quadraticelement2.QuadraticElement2`, and module execution
reports an error when type creation or registration fails. -/
theorem C10_module_exec_registers_type (b : Bool) :
    module_exec true true =
      Except.ok [("QuadraticElement2",
        "radicalfield._quadraticelement2.QuadraticElement2")] ∧
    module_exec false b = Except.error (-1) ∧
    module_exec true false = Except.error (-1) :=
  ⟨rfl, rfl, rfl⟩
